import Mathlib

/-!
Verification of the Cross-Protocol Dust Collector Bot against its
natural-language specification.

This file shallowly embeds the repository's core pipeline in Lean 4:
- `src/economics/gas.ts` (`estimateBundleGasUsd`, sync and async variants)
- `src/economics/pricing.ts` (`quoteToUsd`, with an exact model of
  JavaScript `parseFloat` rounding on integer decimal strings)
- `src/chains/avalanche.ts` (`AvalancheClient.gasPrice` caching state
  machine, `AvalancheClient.simulate`)
- `src/state/db.ts` (`initDb` singleton, `markClaimed` transactional batch
  update)
- the discovery/execution cycle of `src/runner/main.ts`
  (`runDiscoveryAndClaims`: the profitability filter and the per-integration
  and per-bundle try/catch loops)

JavaScript `number` arithmetic is modelled over exact rationals `ℚ` except
where a claim is itself about floating-point precision, in which case the
IEEE-754 double rounding of the relevant operation is modelled exactly.
`bigint` values are modelled as `ℤ`. A `Promise` that can reject is
modelled as `Except String α`: `.ok v` is a resolved value, `.error e`
a thrown/rejected error that a `catch` block would observe.
-/

namespace DustBot

/-- Chains are compared by string equality at runtime
(`chain === 'avalanche'` / `chain === 'tron'`), so a chain is a string. -/
abbrev Chain := String

/-- `Address { value, chain }` from `types/common`. -/
structure Address where
  value : String
  chain : Chain
deriving DecidableEq, Repr

/-- `PendingReward` / reward item from `types/common`: timestamps are
abstract integers, `amountWei` is kept as the decimal string the code
carries. -/
structure RewardItem where
  id : String
  wallet : Address
  protocol : String
  token : Address
  amountWei : String
  amountUsd : ℚ
  claimTo : Address
  discoveredAt : ℤ
  lastClaimAt : Option ℤ := none
deriving DecidableEq, Repr

/-- `ClaimBundle` from `types/common`. -/
structure ClaimBundle where
  id : String
  chain : Chain
  protocol : String
  claimTo : Address
  items : List RewardItem
  totalUsd : ℚ
  estGasUsd : ℚ
  netUsd : ℚ
deriving DecidableEq, Repr

/-! ## Gas estimation (`src/economics/gas.ts`)

The `GAS_ESTIMATES` constants:
avalanche `{ baseClaim: 100000, perExtraClaim: 80000,
gasPrice: 25000000000, nativePrice: 30 }`;
tron `{ baseEnergy: 50000, perExtraEnergy: 40000,
energyToTrx: 0.001, trxPrice: 0.08 }`. -/

def avalancheBaseClaim : ℤ := 100000
def avalanchePerExtraClaim : ℤ := 80000
def avalancheGasPriceWei : ℤ := 25000000000
def avalancheNativePrice : ℚ := 30
def tronBaseEnergy : ℤ := 50000
def tronPerExtraEnergy : ℤ := 40000
def tronEnergyToTrx : ℚ := 1 / 1000
def tronTrxPrice : ℚ := 8 / 100

/-- Sync `estimateBundleGasUsd(bundle, chain)` (also exported as
`estimateBundleGasUsdSync` in the async variant of the module):
`totalGas = baseClaim + (items.length - 1) * perExtraClaim`, converted
wei → native → USD; unknown chains return 0. The `catch` handler of the
sync version is unreachable for well-typed bundles (the body performs only
arithmetic), so it does not appear in the embedding. -/
def estimateBundleGasUsdSync (bundle : ClaimBundle) (chain : Chain) : ℚ :=
  if chain = "avalanche" then
    let totalGas : ℤ := avalancheBaseClaim +
      ((bundle.items.length : ℤ) - 1) * avalanchePerExtraClaim
    let gasCostWei : ℤ := totalGas * avalancheGasPriceWei
    let gasCostEth : ℚ := (gasCostWei : ℚ) / 1000000000000000000
    gasCostEth * avalancheNativePrice
  else if chain = "tron" then
    let totalEnergy : ℤ := tronBaseEnergy +
      ((bundle.items.length : ℤ) - 1) * tronPerExtraEnergy
    let energyCostTrx : ℚ := (totalEnergy : ℚ) * tronEnergyToTrx
    energyCostTrx * tronTrxPrice
  else
    0

/-- The outcome of awaiting one chain-client query: the resolved value, or
the error a surrounding `catch` observes. Models the `ChainClient`
collaborator as seen by one call to the async `estimateBundleGasUsd`. -/
structure ChainClientModel where
  chain : Chain
  gasPriceQ : Except String ℤ
  nativeUsdQ : Except String ℚ

/-- Async `estimateBundleGasUsd(bundle, chain, chainClient?)`.
For avalanche, `gasPrice()` and `nativeUsd()` are awaited in two separate
`try` blocks: a throw of either falls back to the static constant for that
quantity only. For tron, both queries sit in one `try` block:
`energyToTrx` is reassigned from `gasPrice()` (when the returned units are
positive) before `nativeUsd()` is awaited, so a `nativeUsd` throw keeps the
dynamic `energyToTrx` but the fallback `trxPrice`. Unknown chains
return 0. -/
def estimateBundleGasUsd (bundle : ClaimBundle) (chain : Chain)
    (chainClient : Option ChainClientModel) : ℚ :=
  if chain = "avalanche" then
    let totalGas : ℤ := avalancheBaseClaim +
      ((bundle.items.length : ℤ) - 1) * avalanchePerExtraClaim
    let gasPriceWei : ℤ :=
      match chainClient with
      | some c =>
          if c.chain = "avalanche" then
            match c.gasPriceQ with
            | .ok p => p
            | .error _ => avalancheGasPriceWei
          else avalancheGasPriceWei
      | none => avalancheGasPriceWei
    let gasCostWei : ℤ := totalGas * gasPriceWei
    let gasCostEth : ℚ := (gasCostWei : ℚ) / 1000000000000000000
    let nativePrice : ℚ :=
      match chainClient with
      | some c =>
          if c.chain = "avalanche" then
            match c.nativeUsdQ with
            | .ok p => p
            | .error _ => avalancheNativePrice
          else avalancheNativePrice
      | none => avalancheNativePrice
    gasCostEth * nativePrice
  else if chain = "tron" then
    let totalEnergy : ℤ := tronBaseEnergy +
      ((bundle.items.length : ℤ) - 1) * tronPerExtraEnergy
    let rates : ℚ × ℚ :=
      match chainClient with
      | some c =>
          if c.chain = "tron" then
            match c.gasPriceQ with
            | .error _ => (tronEnergyToTrx, tronTrxPrice)
            | .ok units =>
                let e : ℚ :=
                  if 0 < units then (units : ℚ) / 1000000 else tronEnergyToTrx
                match c.nativeUsdQ with
                | .ok p => (e, p)
                | .error _ => (e, tronTrxPrice)
          else (tronEnergyToTrx, tronTrxPrice)
      | none => (tronEnergyToTrx, tronTrxPrice)
    (totalEnergy : ℚ) * rates.1 * rates.2
  else
    0

example :
    estimateBundleGasUsdSync
      ⟨"b", "avalanche", "p", ⟨"0x0", "avalanche"⟩, [], 0, 0, 0⟩
      "avalanche" = 15 / 1000 := by
  norm_num [estimateBundleGasUsdSync, avalancheBaseClaim, avalanchePerExtraClaim,
    avalancheGasPriceWei, avalancheNativePrice]

/-! ## Pricing (`src/economics/pricing.ts`)

`quoteToUsd` resolves the token symbol from the address, and for
stablecoins computes `parseFloat(amountWei) / Math.pow(10, decimals)`.
`parseFloat` reads the decimal string into an IEEE-754 double, which
rounds the integer to 53 significant bits; that rounding is modelled
exactly below. The final division is modelled as exact (its own rounding
could only add further error). -/

def toUpperStr (s : String) : String := ⟨s.data.map Char.toUpper⟩

/-- The `TOKEN_DECIMALS` record. -/
def TOKEN_DECIMALS : List (String × ℕ) :=
  [("USDT", 6), ("USDC", 6), ("DAI", 18), ("AVAX", 18), ("TRX", 6),
   ("WETH", 18), ("WBTC", 8), ("JOE", 18), ("QI", 18), ("GMX", 18)]

/-- `getTokenDecimals(symbol)`: lookup with default 18. -/
def getTokenDecimals (symbol : String) : ℕ :=
  match TOKEN_DECIMALS.lookup (toUpperStr symbol) with
  | some d => d
  | none => 18

/-- The `knownTokens` address → symbol map in
`getTokenSymbolFromAddress`. -/
def knownTokens : List (String × String) :=
  [("0xB97EF9Ef8734C71904D8002F8b6Bc66Dd9c48a6E", "USDC"),
   ("0x9702230A8Ea53601f5cD2dc00fDBc13d4dF4A8c7", "USDT"),
   ("0xd586E7F844cEa2F87f50152665BCbc2C279D8d70", "DAI"),
   ("0xB31f66AA3C1e785363F0875A1B74E27b85FD66c7", "WAVAX"),
   ("TR7NHqjeKQxGTCi8q8ZY4pL8otSzgjLj6t", "USDT"),
   ("TEkxiTehnzSmSe2XqrBj4w32RUN966rdz8", "USDC")]

def getTokenSymbolFromAddress (address : String) : String :=
  match knownTokens.lookup address with
  | some s => s
  | none => "UNKNOWN"

/-- `isStablecoin(symbol, config)`:
`config.pricing.stableSymbols.includes(symbol.toUpperCase())`. -/
def isStablecoin (symbol : String) (stableSymbols : List String) : Bool :=
  stableSymbols.contains (toUpperStr symbol)

/-- Value of a decimal digit string as a natural number (the exact
mathematical value `parseFloat` starts from; per the data-model invariant
`amountWei` parses as a non-negative integer). -/
def parseDecimalNat (s : String) : ℕ :=
  s.data.foldl (fun a c => a * 10 + (c.toNat - 48)) 0

/-- Bit length, with explicit fuel so the kernel can evaluate it
(`fuel = n` always suffices since `n ≥ log2 n + 1`). -/
def bitLenAux : ℕ → ℕ → ℕ
  | 0, _ => 0
  | fuel + 1, n => if n = 0 then 0 else bitLenAux fuel (n / 2) + 1

def bitLen (n : ℕ) : ℕ := bitLenAux n n

/-- Round a natural number to 53 significant bits, round-to-nearest with
ties to even — the value an IEEE-754 double takes when a decimal integer
literal is parsed (exponent overflow at `2^1024` is outside the modelled
range). Integers below `2^53` are unchanged. -/
def roundTo53 (n : ℕ) : ℕ :=
  let b := bitLen n
  if b ≤ 53 then n
  else
    let k := b - 53
    let q := n / 2 ^ k
    let r := n % 2 ^ k
    let half := 2 ^ (k - 1)
    let q2 :=
      if half < r then q + 1
      else if r < half then q
      else if q % 2 = 0 then q else q + 1
    q2 * 2 ^ k

/-- Model of JavaScript `parseFloat` applied to a decimal integer string:
the exact value, rounded to the nearest double. -/
def parseFloatNat (s : String) : ℕ := roundTo53 (parseDecimalNat s)

/-- `quoteToUsd(chain, tokenAddress, amountWei, config)`, stable path:
`parseFloat(amountWei) / Math.pow(10, decimals)`; non-stable tokens return
0 ("real pricing not implemented"). The final division is modelled as
exact division in `ℚ`. The `chain` argument is unused by the source
function's logic and omitted. -/
def quoteToUsd (tokenAddress : String) (amountWei : String)
    (stableSymbols : List String) : ℚ :=
  let tokenSymbol := getTokenSymbolFromAddress tokenAddress
  if isStablecoin tokenSymbol stableSymbols then
    let decimals := getTokenDecimals tokenSymbol
    (parseFloatNat amountWei : ℚ) / 10 ^ decimals
  else
    0

/-- What the claim says the value should be: the exact quotient
`amountWei / 10^decimals`, with `amountWei` read with no precision
loss. -/
def exactQuoteToUsd (tokenAddress : String) (amountWei : String)
    (stableSymbols : List String) : ℚ :=
  let tokenSymbol := getTokenSymbolFromAddress tokenAddress
  if isStablecoin tokenSymbol stableSymbols then
    (parseDecimalNat amountWei : ℚ) / 10 ^ (getTokenDecimals tokenSymbol)
  else
    0

example : parseDecimalNat ("9007199254740993") = 9007199254740993 := by decide
example : parseFloatNat ("9007199254740993") = 9007199254740992 := by decide

/-! ## Persistent store (`src/state/db.ts`) -/

/-- The module-level singleton handle: `let dbInstance = null`. A handle
remembers the path it was opened on. -/
structure DbHandle where
  path : String
deriving DecidableEq, Repr

/-- `initDb(dbPath)`: if the singleton is set, return it (the path
argument is not consulted); otherwise open a database on `dbPath`, store
it in the singleton and return it. Result: (returned handle, new
singleton state, whether a new database was opened). -/
def initDb (dbInstance : Option DbHandle) (dbPath : String) :
    DbHandle × Option DbHandle × Bool :=
  match dbInstance with
  | some db => (db, some db, false)
  | none => (⟨dbPath⟩, some ⟨dbPath⟩, true)

/-- One row of the `pending_rewards` table, restricted to the columns
`markClaimed` touches plus the key. -/
structure RewardRow where
  id : String
  is_stale : Bool
  last_claim_at : Option String
deriving DecidableEq, Repr

/-- The single `UPDATE pending_rewards SET is_stale = TRUE,
last_claim_at = ? WHERE id = ?` statement, run for one id. -/
def runMarkOne (claimedAt : String) (rid : String)
    (rows : List RewardRow) : List RewardRow :=
  rows.map fun r =>
    if r.id = rid then { r with is_stale := true, last_claim_at := some claimedAt }
    else r

/-- The statement runs inside `db.transaction`, executed one id at a
time; `fails` is the environment oracle saying which individual
`stmt.run` throws (an SQLite error). -/
def markClaimedGo (fails : String → Bool) (claimedAt : String) :
    List String → List RewardRow → Except String (List RewardRow)
  | [], rows => .ok rows
  | rid :: rest, rows =>
      if fails rid then .error "SQLITE_ERROR"
      else markClaimedGo fails claimedAt rest (runMarkOne claimedAt rid rows)

/-- `markClaimed(db, rewardIds, claimedAt)`: the per-id updates are
wrapped in `db.transaction(...)`. better-sqlite3 transaction semantics:
if the wrapped function throws, the transaction is rolled back and the
database is left in the state it had at `BEGIN`. Result: (state of the
store after the call, whether the transaction committed). -/
def markClaimed (fails : String → Bool) (claimedAt : String)
    (rewardIds : List String) (rows : List RewardRow) :
    List RewardRow × Bool :=
  match markClaimedGo fails claimedAt rewardIds rows with
  | .ok r => (r, true)
  | .error _ => (rows, false)

/-! ## Avalanche chain adapter (`src/chains/avalanche.ts`) -/

/-- The relevant fields of the `ethers` fee data object returned by
`provider.getFeeData()`. -/
structure FeeData where
  gasPrice : Option ℤ
  maxFeePerGas : Option ℤ
deriving DecidableEq, Repr

/-- `this.gasPriceCache`: `{ price, timestamp }`. -/
structure GasCache where
  price : ℤ
  timestamp : ℤ
deriving DecidableEq, Repr

/-- `CACHE_TTL_MS = 30000`. -/
def CACHE_TTL_MS : ℤ := 30000

/-- The EIP-1559 / legacy selection inside `gasPrice()`:
`feeData.gasPrice`, else `feeData.maxFeePerGas`, else the 25 gwei
default. -/
def selectGasPrice (fd : FeeData) : ℤ :=
  match fd.gasPrice with
  | some p => p
  | none =>
      match fd.maxFeePerGas with
      | some p => p
      | none => 25000000000

/-- One call to `AvalancheClient.gasPrice()`. `cache` is the current
`gasPriceCache`, `now` is `Date.now()`, and `fetch` is what awaiting
`provider.getFeeData()` would produce (`.error` = network throw, observed
by the `catch`). Returns (value returned to the caller, cache state after
the call, whether the network was queried). The function is total: a
query failure is absorbed, never rethrown. -/
def gasPriceCall (cache : Option GasCache) (now : ℤ)
    (fetch : Except String FeeData) : ℤ × Option GasCache × Bool :=
  match cache with
  | some c =>
      if now - c.timestamp < CACHE_TTL_MS then
        (c.price, some c, false)
      else
        match fetch with
        | .ok fd => (selectGasPrice fd, some ⟨selectGasPrice fd, now⟩, true)
        | .error _ => (c.price, some c, true)
  | none =>
      match fetch with
      | .ok fd => (selectGasPrice fd, some ⟨selectGasPrice fd, now⟩, true)
      | .error _ => (25000000000, none, true)

/-- `SimulationResult { ok, reason? }`. -/
structure SimulationResult where
  ok : Bool
  reason : Option String
deriving DecidableEq, Repr

/-- One call to `AvalancheClient.simulate(bundle)`. `wallet` is the
optional configured wallet address; `balanceFetch` is what awaiting
`getBalance` would produce (a throw lands in the surrounding `catch`,
and an undefined provider yields balance `0n` via `|| 0n`);
`gasPriceVal` is the value produced by `this.gasPrice()` (total — see
`gasPriceCall`); `itemCount` is `bundle.items.length`. The worst-case
gas is `21000n * itemCount` and the call succeeds only when the balance
covers `gasPrice * estimatedGas`. Every path returns a
`SimulationResult`; nothing is thrown (the reason-string formatting of
the required amount is abbreviated). -/
def simulate (wallet : Option String) (balanceFetch : Except String ℤ)
    (gasPriceVal : ℤ) (itemCount : ℕ) : SimulationResult :=
  match wallet with
  | none => ⟨false, some ("No wallet configured for simulation")⟩
  | some _ =>
      match balanceFetch with
      | .error msg => ⟨false, some ("Simulation failed: " ++ msg)⟩
      | .ok balance =>
          let estimatedGas : ℤ := 21000 * (itemCount : ℤ)
          let gasRequired : ℤ := gasPriceVal * estimatedGas
          if balance < gasRequired then
            ⟨false, some ("Insufficient balance for gas. Required: ...")⟩
          else
            ⟨true, none⟩

/-! ## Discovery-and-claims cycle (`src/runner/main.ts`,
`runDiscoveryAndClaims`) -/

/-- `TxResult` from `types/common`. -/
structure TxResult where
  success : Bool
  txHash : Option String := none
  error : Option String := none
  gasUsed : Option String := none
  gasUsd : Option ℚ := none
  claimedUsd : ℚ
deriving DecidableEq, Repr

/-- The integration loop: `for (const integration of integrations) {
try { ... allPendingRewards.push(...pendingRewards); } catch (error) {
logger.error(...); } }`. Each element is what one integration's body
produces when awaited: the rewards it contributes, or the error its
`catch` absorbs. -/
def runIntegrationsLoop :
    List (Except String (List RewardItem)) → List RewardItem
  | [] => []
  | Except.ok rs :: rest => rs ++ runIntegrationsLoop rest
  | Except.error _ :: rest => runIntegrationsLoop rest

/-- The bundle execution loop: `for (const bundle of profitableBundles) {
try { ... } catch (error) { logger.error(...); } }`. Each element is what
one iteration produces: `.ok none` when the bundle is skipped
(idempotency or failed simulation — `continue`), `.ok (some r)` when a
result was recorded via `recordExecutionResult`, `.error e` when the body
threw and the `catch` absorbed it. Returns the recorded results in
order. -/
def executeBundlesLoop : List (Except String (Option TxResult)) → List TxResult
  | [] => []
  | Except.ok (some r) :: rest => r :: executeBundlesLoop rest
  | Except.ok none :: rest => executeBundlesLoop rest
  | Except.error _ :: rest => executeBundlesLoop rest

/-- The profitability filter predicate from the cycle:
`if (bundle.totalUsd < Policy.MIN_BUNDLE_GROSS_USD) return false;
if (bundle.netUsd < Policy.MIN_BUNDLE_NET_USD) return false;
return true;`. The two `Policy` thresholds are configuration values and
are taken as parameters. -/
def profitabilityKeep (minGross minNet : ℚ) (b : ClaimBundle) : Bool :=
  if b.totalUsd < minGross then false
  else if b.netUsd < minNet then false
  else true

/-- `bundles.filter(...)` in the cycle: the surviving (executed)
bundles. -/
def filterProfitable (minGross minNet : ℚ)
    (bundles : List ClaimBundle) : List ClaimBundle :=
  bundles.filter (profitabilityKeep minGross minNet)

/-- Modelled from the spec: the bundler glue (`src/engine/bundler.js` and
the profitability glue that fills bundle economics, absent from the
available sources) sets `estGasUsd` to the gas estimate produced for the
bundle and `netUsd` to `totalUsd - estGasUsd` ("`netUsd`:
`totalUsd - estGasUsd`, filled in alongside `estGasUsd`"). -/
def bundleEstimated (b : ClaimBundle) : Prop :=
  b.netUsd = b.totalUsd - b.estGasUsd

/-! ## Theorems -/

/-- C2: a bundle reaching the profitability filter of the cycle is kept
(executed) iff `totalUsd >= MIN_BUNDLE_GROSS_USD` and
`totalUsd - estGasUsd >= MIN_BUNDLE_NET_USD` (with
`netUsd = totalUsd - estGasUsd` as the bundler fills it in); failing
either threshold merely drops the bundle from the filtered list — the
filter is a total boolean predicate, not an error path. -/
theorem profitability_filter_keeps_iff (minGross minNet : ℚ)
    (bundles : List ClaimBundle) (b : ClaimBundle)
    (hb : bundleEstimated b) :
    b ∈ filterProfitable minGross minNet bundles ↔
      b ∈ bundles ∧ minGross ≤ b.totalUsd ∧
        minNet ≤ b.totalUsd - b.estGasUsd := by
  unfold bundleEstimated at hb
  rw [filterProfitable, List.mem_filter, ← hb]
  refine and_congr_right fun _ => ?_
  unfold profitabilityKeep
  split_ifs with h1 h2
  · simp only [Bool.false_eq_true, false_iff]
    intro h
    exact absurd h.1 (not_le.mpr h1)
  · simp only [Bool.false_eq_true, false_iff]
    intro h
    exact absurd h.2 (not_le.mpr h2)
  · simp only [true_iff]
    exact ⟨not_lt.mp h1, not_lt.mp h2⟩

/-- Witness for C2 (the accepted scenario of the spec: gross 5, gas 1,
net 4, thresholds 2 and 1). -/
theorem profitability_filter_keeps_iff_witness :
    (⟨"b1", "avalanche", "x", ⟨"0xdest", "avalanche"⟩, [], 5, 1, 4⟩ :
        ClaimBundle) ∈
      filterProfitable 2 1
        [⟨"b1", "avalanche", "x", ⟨"0xdest", "avalanche"⟩, [], 5, 1, 4⟩] :=
  (profitability_filter_keeps_iff 2 1
      [⟨"b1", "avalanche", "x", ⟨"0xdest", "avalanche"⟩, [], 5, 1, 4⟩]
      ⟨"b1", "avalanche", "x", ⟨"0xdest", "avalanche"⟩, [], 5, 1, 4⟩
      (by norm_num [bundleEstimated])).mpr
    ⟨List.mem_singleton.mpr rfl, by norm_num, by norm_num⟩

/-- C5: on the supported chains the estimated units are exactly
`baseUnits + (items.length - 1) * perExtraUnits` with the chain's
constants, and the USD estimate is units × unit price (wei per gas,
resp. TRX per energy) × native-asset USD price. -/
theorem gas_units_linear (b : ClaimBundle) :
    estimateBundleGasUsdSync b ("avalanche") =
      ((100000 + ((b.items.length : ℤ) - 1) * 80000 : ℤ) : ℚ) *
        ((25000000000 : ℚ) / 1000000000000000000) * 30
    ∧ estimateBundleGasUsdSync b ("tron") =
      ((50000 + ((b.items.length : ℤ) - 1) * 40000 : ℤ) : ℚ) *
        (1 / 1000) * (8 / 100) := by
  have hta : ("tron" : String) ≠ "avalanche" := by decide
  constructor
  · simp only [estimateBundleGasUsdSync, if_pos rfl, avalancheBaseClaim,
      avalanchePerExtraClaim, avalancheGasPriceWei, avalancheNativePrice]
    push_cast
    ring
  · simp only [estimateBundleGasUsdSync, if_neg hta, if_pos rfl,
      tronBaseEnergy, tronPerExtraEnergy, tronEnergyToTrx, tronTrxPrice]
    push_cast
    ring

/-- C9: a bundle on a chain that is neither `avalanche` nor `tron` is
costed at 0 by both gas estimators (the unknown-chain branch), so its
net value `totalUsd - estGasUsd` equals its gross value. -/
theorem unknown_chain_gas_free (b : ClaimBundle) (chain : Chain)
    (client : Option ChainClientModel)
    (h1 : chain ≠ "avalanche") (h2 : chain ≠ "tron") :
    estimateBundleGasUsd b chain client = 0
    ∧ estimateBundleGasUsdSync b chain = 0
    ∧ b.totalUsd - estimateBundleGasUsd b chain client = b.totalUsd := by
  refine ⟨?_, ?_, ?_⟩ <;>
    simp [estimateBundleGasUsd, estimateBundleGasUsdSync, h1, h2]

/-- Witness for C9: a bundle on chain `bsc` is estimated as gas-free. -/
theorem unknown_chain_gas_free_witness :
    estimateBundleGasUsd
        ⟨"b", "bsc", "p", ⟨"T", "bsc"⟩, [], 7, 0, 7⟩ ("bsc") none = 0
    ∧ estimateBundleGasUsdSync
        ⟨"b", "bsc", "p", ⟨"T", "bsc"⟩, [], 7, 0, 7⟩ ("bsc") = 0
    ∧ (⟨"b", "bsc", "p", ⟨"T", "bsc"⟩, [], 7, 0, 7⟩ : ClaimBundle).totalUsd -
        estimateBundleGasUsd
          ⟨"b", "bsc", "p", ⟨"T", "bsc"⟩, [], 7, 0, 7⟩ ("bsc") none =
        (⟨"b", "bsc", "p", ⟨"T", "bsc"⟩, [], 7, 0, 7⟩ : ClaimBundle).totalUsd :=
  unknown_chain_gas_free ⟨"b", "bsc", "p", ⟨"T", "bsc"⟩, [], 7, 0, 7⟩ "bsc"
    none (by decide) (by decide)

/-- C10: `initDb` opens a database only on the first call — the first
call on path `p` opens a handle on `p` and stores it in the module
singleton; once the singleton is set, `initDb q` for any path `q`
returns the stored handle unchanged, opens nothing, and leaves the
singleton as it was, so the path argument of every call after the first
is ignored. -/
theorem initDb_singleton (p q : String) (state : Option DbHandle)
    (db : DbHandle) (h : state = some db) :
    ((initDb none p).1.path = p ∧ (initDb none p).2.2 = true ∧
      (initDb none p).2.1 = some (initDb none p).1)
    ∧ initDb state q = (db, state, false) := by
  subst h
  simp [initDb]

/-- Witness for C10: open on `"a"`, then call again with `"b"`. -/
theorem initDb_singleton_witness :
    ((initDb none ("a")).1.path = "a" ∧ (initDb none ("a")).2.2 = true ∧
      (initDb none ("a")).2.1 = some (initDb none ("a")).1)
    ∧ initDb (some ⟨"a"⟩) ("b") = (⟨"a"⟩, some ⟨"a"⟩, false) :=
  initDb_singleton ("a") ("b") (some ⟨"a"⟩) ⟨"a"⟩ rfl

/-- The static per-chain estimate is strictly positive on the supported
chains (the linear unit count is at least `base - perExtra > 0` even for
an empty item list). -/
lemma estimateBundleGasUsdSync_pos (b : ClaimBundle) (chain : Chain)
    (h : chain = "avalanche" ∨ chain = "tron") :
    0 < estimateBundleGasUsdSync b chain := by
  have hL : (0 : ℤ) ≤ (b.items.length : ℤ) := Int.natCast_nonneg _
  rcases h with h | h <;> subst h
  · simp only [estimateBundleGasUsdSync, if_pos rfl, avalancheBaseClaim,
      avalanchePerExtraClaim, avalancheGasPriceWei, avalancheNativePrice]
    have h1 : (0 : ℤ) <
        (100000 + ((b.items.length : ℤ) - 1) * 80000) * 25000000000 := by
      nlinarith
    have h2 : (0 : ℚ) <
        (((100000 + ((b.items.length : ℤ) - 1) * 80000) * 25000000000 : ℤ) : ℚ) := by
      exact_mod_cast h1
    have h3 : (0 : ℚ) < (1000000000000000000 : ℚ) := by norm_num
    exact mul_pos (div_pos h2 h3) (by norm_num)
  · have hta : ("tron" : String) ≠ "avalanche" := by decide
    simp only [estimateBundleGasUsdSync, if_neg hta, if_pos rfl,
      tronBaseEnergy, tronPerExtraEnergy, tronEnergyToTrx, tronTrxPrice]
    have h1 : (0 : ℤ) < 50000 + ((b.items.length : ℤ) - 1) * 40000 := by
      nlinarith
    have h2 : (0 : ℚ) <
        ((50000 + ((b.items.length : ℤ) - 1) * 40000 : ℤ) : ℚ) := by
      exact_mod_cast h1
    have h3 : (0 : ℚ) < 1 / 1000 := by norm_num
    exact mul_pos (mul_pos h2 h3) (by norm_num)

/-- C1: if the adapter queries behind the async `estimateBundleGasUsd`
both throw (a bad adapter response), the estimate equals the static
per-chain fallback computation and is strictly positive — an estimation
failure never yields a gas-free (0) estimate on a supported chain, so it
never makes the bundle look cheaper than the static cost. -/
theorem estimation_failure_uses_static_fallback (b : ClaimBundle)
    (c : ChainClientModel) (chain : Chain) (e1 e2 : String)
    (hg : c.gasPriceQ = Except.error e1)
    (hn : c.nativeUsdQ = Except.error e2)
    (hchain : chain = "avalanche" ∨ chain = "tron") :
    estimateBundleGasUsd b chain (some c) = estimateBundleGasUsdSync b chain
    ∧ 0 < estimateBundleGasUsd b chain (some c) := by
  have heq :
      estimateBundleGasUsd b chain (some c) = estimateBundleGasUsdSync b chain := by
    rcases hchain with h | h <;> subst h
    · by_cases hc : c.chain = "avalanche" <;>
        simp [estimateBundleGasUsd, estimateBundleGasUsdSync, hg, hn, hc]
    · by_cases hc : c.chain = "tron" <;>
        simp [estimateBundleGasUsd, estimateBundleGasUsdSync, hg, hn, hc]
  exact ⟨heq, heq ▸ estimateBundleGasUsdSync_pos b chain hchain⟩

/-- Witness for C1: an adapter whose two queries both fail. -/
theorem estimation_failure_uses_static_fallback_witness :
    estimateBundleGasUsd
        ⟨"b", "avalanche", "p", ⟨"0x0", "avalanche"⟩, [], 0, 0, 0⟩
        ("avalanche")
        (some ⟨"avalanche", Except.error "bad response", Except.error "bad response"⟩) =
      estimateBundleGasUsdSync
        ⟨"b", "avalanche", "p", ⟨"0x0", "avalanche"⟩, [], 0, 0, 0⟩
        ("avalanche")
    ∧ 0 < estimateBundleGasUsd
        ⟨"b", "avalanche", "p", ⟨"0x0", "avalanche"⟩, [], 0, 0, 0⟩
        ("avalanche")
        (some ⟨"avalanche", Except.error "bad response", Except.error "bad response"⟩) :=
  estimation_failure_uses_static_fallback
    ⟨"b", "avalanche", "p", ⟨"0x0", "avalanche"⟩, [], 0, 0, 0⟩
    ⟨"avalanche", Except.error "bad response", Except.error "bad response"⟩
    "avalanche" "bad response" "bad response" rfl rfl (Or.inl rfl)

/-- C7: `AvalancheClient.gasPrice` (i) answers from the cache, without a
network query and without changing state, whenever the cached entry is
younger than the 30 s TTL — so a call that fills the cache followed by a
second call within the TTL returns the same value with no second query —
and (ii) never propagates a fetch failure: on a failed query it returns
the cached price when a cache entry exists and the fixed 25 gwei default
otherwise. -/
theorem gasPrice_cache_ttl_and_fallback (cache : Option GasCache)
    (c : GasCache) (now now2 : ℤ) (fetch fetch2 : Except String FeeData)
    (e : String) (fd : FeeData) :
    (cache = some c → now - c.timestamp < CACHE_TTL_MS →
      gasPriceCall cache now fetch = (c.price, some c, false))
    ∧ (fetch = Except.error e → cache = some c →
      (gasPriceCall cache now fetch).1 = c.price ∧
        (gasPriceCall cache now fetch).2.1 = some c)
    ∧ (fetch = Except.error e → cache = none →
      (gasPriceCall cache now fetch).1 = 25000000000)
    ∧ (fetch = Except.ok fd → now2 - now < CACHE_TTL_MS →
      gasPriceCall (gasPriceCall none now fetch).2.1 now2 fetch2 =
        ((gasPriceCall none now fetch).1,
          (gasPriceCall none now fetch).2.1, false)) := by
  refine ⟨?_, ?_, ?_, ?_⟩
  · intro hc hfresh
    subst hc
    simp [gasPriceCall, hfresh]
  · intro hf hc
    subst hf; subst hc
    by_cases hfresh : now - c.timestamp < CACHE_TTL_MS <;>
      simp [gasPriceCall, hfresh]
  · intro hf hc
    subst hf; subst hc
    simp [gasPriceCall]
  · intro hf hlt
    subst hf
    simp [gasPriceCall, hlt]

/-- Witness for C7: a fresh cache entry `{price 10, timestamp 0}` at
time 5 is returned untouched even though the network is down. -/
theorem gasPrice_cache_ttl_and_fallback_witness :
    gasPriceCall (some ⟨10, 0⟩) 5 (Except.error "down") =
      (10, some ⟨10, 0⟩, false) :=
  (gasPrice_cache_ttl_and_fallback (some ⟨10, 0⟩) ⟨10, 0⟩ 5 6
      (Except.error "down") (Except.error "down2") "down" ⟨none, none⟩).1
    rfl (by decide)

/-- C8: `AvalancheClient.simulate` is a total function into
`SimulationResult` — every expected failure (missing wallet,
insufficient balance) and every thrown adapter error ends in
`{ok := false, reason := some _}` — and it returns `ok` exactly when a
wallet is configured, the balance query succeeded, and the balance
covers the worst-case gas cost `gasPrice * 21000 * itemCount`. -/
theorem simulate_total_and_guarded (w : Option String)
    (bfetch : Except String ℤ) (g : ℤ) (n : ℕ) :
    ((simulate w bfetch g n).ok = true ↔
      ((∃ a, w = some a) ∧
        ∃ v, bfetch = Except.ok v ∧ g * (21000 * (n : ℤ)) ≤ v))
    ∧ ((simulate w bfetch g n).ok = false →
      ((simulate w bfetch g n).reason).isSome = true) := by
  cases w with
  | none => simp [simulate]
  | some a =>
    cases bfetch with
    | error m => simp [simulate]
    | ok v =>
      by_cases h : v < g * (21000 * (n : ℤ))
      · simp only [simulate, if_pos h]
        refine ⟨?_, fun _ => rfl⟩
        simp only [Bool.false_eq_true, false_iff]
        rintro ⟨-, v2, hv2, hle⟩
        cases hv2
        exact absurd hle (not_le.mpr h)
      · simp only [simulate, if_neg h]
        refine ⟨?_, fun hfalse => by cases hfalse⟩
        simp only [true_iff]
        exact ⟨⟨a, rfl⟩, v, rfl, not_lt.mp h⟩

/-- Witness for C8: no configured wallet — the result is a structured
refusal, not an exception. -/
theorem simulate_total_and_guarded_witness :
    ((simulate none (Except.ok 0) 25000000000 1).reason).isSome = true :=
  (simulate_total_and_guarded none (Except.ok 0) 25000000000 1).2 (by decide)

/-- When no `stmt.run` throws, the transaction body maps every row whose
id is in the batch to its marked form and leaves the others alone. -/
lemma markClaimedGo_ok_eq (fails : String → Bool) (t : String) :
    ∀ (ids : List String) (rows res : List RewardRow),
      markClaimedGo fails t ids rows = Except.ok res →
      res = rows.map fun r =>
        if r.id ∈ ids then { r with is_stale := true, last_claim_at := some t }
        else r := by
  intro ids
  induction ids with
  | nil =>
    intro rows res h
    simp only [markClaimedGo, Except.ok.injEq] at h
    simp [← h]
  | cons rid rest ih =>
    intro rows res h
    simp only [markClaimedGo] at h
    split at h
    · exact absurd h (by simp)
    · have hres := ih (runMarkOne t rid rows) res h
      subst hres
      unfold runMarkOne
      rw [List.map_map]
      refine List.map_congr_left fun r _ => ?_
      by_cases h1 : r.id = rid
      · by_cases h2 : r.id ∈ rest <;>
          simp [Function.comp, h1, h2, List.mem_cons]
      · by_cases h2 : r.id ∈ rest <;>
          simp [Function.comp, h1, h2, List.mem_cons]

/-- C3: `markClaimed` is atomic as a set because the per-id `UPDATE`
statements run inside one `db.transaction`: if the transaction commits,
every row whose id is in the batch carries `is_stale = TRUE` and the
batch's `last_claim_at`; if any write throws partway, the transaction
rolls back and the store is exactly as before the call. -/
theorem markClaimed_atomic (fails : String → Bool) (t : String)
    (ids : List String) (rows : List RewardRow) :
    ((markClaimed fails t ids rows).2 = true →
      ∀ r ∈ (markClaimed fails t ids rows).1, r.id ∈ ids →
        r.is_stale = true ∧ r.last_claim_at = some t)
    ∧ ((markClaimed fails t ids rows).2 = false →
      (markClaimed fails t ids rows).1 = rows) := by
  unfold markClaimed
  cases h : markClaimedGo fails t ids rows with
  | ok res =>
    refine ⟨fun _ r hr hrid => ?_, fun hfalse => by cases hfalse⟩
    have hres := markClaimedGo_ok_eq fails t ids rows res h
    subst hres
    rcases List.mem_map.mp hr with ⟨r0, hr0, hfr⟩
    by_cases h0 : r0.id ∈ ids
    · rw [if_pos h0] at hfr
      rw [← hfr]
      exact ⟨rfl, rfl⟩
    · rw [if_neg h0] at hfr
      rw [← hfr] at hrid
      exact absurd hrid h0
  | error e =>
    constructor
    · intro htrue
      simp at htrue
    · intro _
      rfl

/-- Witness for C3: marking the single id `"a"` with no write failure
leaves the matching row stale with the batch timestamp. -/
theorem markClaimed_atomic_witness :
    (⟨"a", true, some ("T")⟩ : RewardRow).is_stale = true ∧
      (⟨"a", true, some ("T")⟩ : RewardRow).last_claim_at = some ("T") :=
  (markClaimed_atomic (fun _ => false) ("T") (["a"])
      ([⟨"a", false, none⟩])).1 (by decide)
    ⟨"a", true, some ("T")⟩ (by decide) (by decide)

/-- The integration loop is a homomorphism over list append. -/
lemma runIntegrationsLoop_append
    (xs ys : List (Except String (List RewardItem))) :
    runIntegrationsLoop (xs ++ ys) =
      runIntegrationsLoop xs ++ runIntegrationsLoop ys := by
  induction xs with
  | nil => rfl
  | cons x rest ih =>
    cases x with
    | ok rs => simp [runIntegrationsLoop, ih]
    | error e => simp [runIntegrationsLoop, ih]

/-- The bundle execution loop is a homomorphism over list append. -/
lemma executeBundlesLoop_append
    (bs cs : List (Except String (Option TxResult))) :
    executeBundlesLoop (bs ++ cs) =
      executeBundlesLoop bs ++ executeBundlesLoop cs := by
  induction bs with
  | nil => rfl
  | cons x rest ih =>
    cases x with
    | ok o => cases o <;> simp [executeBundlesLoop, ih]
    | error e => simp [executeBundlesLoop, ih]

/-- C6: inside one cycle, a thrown error in a single integration or in a
single bundle's execution is caught at the loop boundary: the failing
iteration contributes nothing, and the contributions of every iteration
before and after it are exactly what they would be without the failure —
the remaining integrations/bundles are still processed. -/
theorem cycle_failure_isolated
    (xs ys : List (Except String (List RewardItem))) (e : String)
    (bs cs : List (Except String (Option TxResult))) (e2 : String) :
    runIntegrationsLoop (xs ++ Except.error e :: ys) =
      runIntegrationsLoop xs ++ runIntegrationsLoop ys
    ∧ executeBundlesLoop (bs ++ Except.error e2 :: cs) =
      executeBundlesLoop bs ++ executeBundlesLoop cs := by
  constructor
  · rw [runIntegrationsLoop_append]
    simp [runIntegrationsLoop]
  · rw [executeBundlesLoop_append]
    simp [executeBundlesLoop]

/-- C4: the claim fails on the code. `quoteToUsd` passes `amountWei`
through `parseFloat` (an IEEE-754 double), so for the USDT amount
`"9007199254740993"` (2^53 + 1 smallest units) the low bit is rounded
away and the result is `9007199254740992 / 10^6`, not the exact
`9007199254740993 / 10^6` required by the spec's
never-through-a-floating-type rule (`exactQuoteToUsd`). -/
theorem quoteToUsd_precision_loss :
    quoteToUsd ("0x9702230A8Ea53601f5cD2dc00fDBc13d4dF4A8c7")
        ("9007199254740993") (["USDT", "USDC", "DAI"]) =
      (9007199254740992 : ℚ) / 1000000
    ∧ exactQuoteToUsd ("0x9702230A8Ea53601f5cD2dc00fDBc13d4dF4A8c7")
        ("9007199254740993") (["USDT", "USDC", "DAI"]) =
      (9007199254740993 : ℚ) / 1000000
    ∧ quoteToUsd ("0x9702230A8Ea53601f5cD2dc00fDBc13d4dF4A8c7")
        ("9007199254740993") (["USDT", "USDC", "DAI"]) ≠
      exactQuoteToUsd ("0x9702230A8Ea53601f5cD2dc00fDBc13d4dF4A8c7")
        ("9007199254740993") (["USDT", "USDC", "DAI"]) := by
  have hsym : getTokenSymbolFromAddress
      ("0x9702230A8Ea53601f5cD2dc00fDBc13d4dF4A8c7") = "USDT" := by decide
  have hstable : isStablecoin ("USDT") (["USDT", "USDC", "DAI"]) = true := by
    decide
  have hdec : getTokenDecimals ("USDT") = 6 := by decide
  have hfp : parseFloatNat ("9007199254740993") = 9007199254740992 := by decide
  have hex : parseDecimalNat ("9007199254740993") = 9007199254740993 := by
    decide
  have h1 : quoteToUsd ("0x9702230A8Ea53601f5cD2dc00fDBc13d4dF4A8c7")
      ("9007199254740993") (["USDT", "USDC", "DAI"]) =
        (9007199254740992 : ℚ) / 1000000 := by
    simp only [quoteToUsd, hsym, hstable, if_pos, hdec, hfp]
    norm_num
  have h2 : exactQuoteToUsd ("0x9702230A8Ea53601f5cD2dc00fDBc13d4dF4A8c7")
      ("9007199254740993") (["USDT", "USDC", "DAI"]) =
        (9007199254740993 : ℚ) / 1000000 := by
    simp only [exactQuoteToUsd, hsym, hstable, if_pos, hdec, hex]
    norm_num
  refine ⟨h1, h2, ?_⟩
  rw [h1, h2]
  norm_num

end DustBot
